import Mathlib

/-!
Verification of the Luna-AI model-routing / fallback layer (`ai_api.py`) and
its status cache (`SettingsManager` in `app.py`), as a shallow embedding.

Modelling conventions:
* Python strings are Lean `String`; `x in s` is `pyContains s x`; `.lower()`
  is `pyLower`; `.strip()` is `pyStrip` (both act on the ASCII
  content relevant here).
* Python floats used only for ordered threshold comparisons (the creativity
  level) are modelled as `ℚ`.
* Python ints are `Int`; timestamps (`time.time()`, `datetime.now()`) are
  supplied by the caller as explicit values.
* External collaborators (the HTTP client outcomes, `random`, the weather /
  search / OS-command executors, environment variables) are oracle inputs;
  the routing logic itself is translated statement by statement.
* Exceptions are explicit: the remote client returns a success text or a
  typed exception value, and the router's `try/except` blocks are modelled
  as matches on those values.
-/

namespace LunaAI

/-- Python `s.lower()` (character-wise; the messages involved are ASCII). -/
def pyLower (s : String) : String :=
  ⟨s.data.map Char.toLower⟩

/-- Python `s.strip()`: drop whitespace from both ends. -/
def pyStrip (s : String) : String :=
  ⟨((s.data.dropWhile Char.isWhitespace).reverse.dropWhile Char.isWhitespace).reverse⟩

/-- Python `needle in hay` on strings: `needle` occurs at some position of
`hay`. -/
def pyContains (hay needle : String) : Bool :=
  (List.range (hay.data.length + 1)).any (fun i => needle.data.isPrefixOf (hay.data.drop i))

/-- Split on the leftmost occurrences of a non-empty separator
(fuel-driven recursion over the character list; `fuel = length + 1`
always suffices since every step consumes at least one character). -/
def pySplitAux (sep : List Char) : Nat → List Char → List Char → List (List Char)
  | 0, l, acc => [acc.reverse ++ l]
  | fuel + 1, l, acc =>
    match l with
    | [] => [acc.reverse]
    | c :: rest =>
      if sep.isPrefixOf (c :: rest) then
        acc.reverse :: pySplitAux sep fuel ((c :: rest).drop sep.length) []
      else pySplitAux sep fuel rest (c :: acc)

/-- Python `s.split(sep)` for a non-empty separator. -/
def pySplit (s sep : String) : List String :=
  (pySplitAux sep.data (s.data.length + 1) s.data []).map (fun l => ⟨l⟩)

/-- Python `sep.join(parts)`. -/
def pyJoin (sep : String) : List String → String
  | [] => ""
  | [x] => x
  | x :: y :: rest => x ++ sep ++ pyJoin sep (y :: rest)

/-- Python `s.replace(pat, repl)` for a non-empty pattern: replace every
non-overlapping occurrence, left to right. -/
def pyReplaceAux (pat repl : List Char) : Nat → List Char → List Char
  | 0, l => l
  | fuel + 1, l =>
    match l with
    | [] => []
    | c :: rest =>
      if pat.isPrefixOf (c :: rest) then
        repl ++ pyReplaceAux pat repl fuel ((c :: rest).drop pat.length)
      else c :: pyReplaceAux pat repl fuel rest

/-- Python `s.replace(pat, repl)`. -/
def pyReplace (s pat repl : String) : String :=
  ⟨pyReplaceAux pat.data repl.data (s.data.length + 1) s.data⟩

/-- Python `s.split(sep, 1)`: split at the first occurrence only. -/
def pySplit1 (s sep : String) : List String :=
  match pySplit s sep with
  | [] => [s]
  | [x] => [x]
  | x :: rest => [x, pyJoin sep rest]

/-- Python `s.lstrip(chars)`: drop leading characters that belong to the
character set `chars` (a set of characters, not a string to remove). -/
def pyLstripSet (s chars : String) : String :=
  ⟨s.data.dropWhile (fun c => chars.data.contains c)⟩

/-- Python `l[-m:]` for the non-negative `m` produced by the engine's clamps:
the last `m` elements (`l[-0:]` is the whole list). -/
def pyTakeLast {α : Type} (l : List α) (m : Int) : List α :=
  if m ≤ 0 then l else l.drop (l.length - m.toNat)

/-- `"\n\n[Using: {nm}]"`, the response-envelope suffix every terminal
outcome of `call_ai_api` carries. -/
def using_suffix (nm : String) : String :=
  "\n\n[Using: " ++ nm ++ "]"

/-! ## LocalConversationEngine (`ai_api.py` lines 67-377) -/

/-- One `context_memory` entry: `{'user', 'response', 'timestamp'}`. -/
structure MemEntry where
  user : String
  response : String
  timestamp : String
deriving DecidableEq, Repr

/-- Mutable state of `LocalConversationEngine`.  `conversation_history` is
initialised in the source and never used, so it is omitted; `user_profile`
is a dict whose values are opaque payload, modelled as strings. -/
structure EngineSt where
  creativity_level : ℚ
  context_memory : List MemEntry
  max_memory : Int
  user_profile : List (String × String)
deriving DecidableEq, Repr

/-- `__init__(creativity_level=0.7)`. -/
def EngineSt.init : EngineSt :=
  { creativity_level := mkRat 7 10, context_memory := [], max_memory := 10, user_profile := [] }

/-- `set_creativity`: clamp to `[0.1, 1.0]`. -/
def set_creativity (e : EngineSt) (level : ℚ) : EngineSt :=
  { e with creativity_level := max (mkRat 1 10) (min 1 level) }

/-- `set_memory_size`: clamp to `[5, 50]` and trim existing memory. -/
def set_memory_size (e : EngineSt) (size : Int) : EngineSt :=
  let e := { e with max_memory := max 5 (min 50 size) }
  if (e.context_memory.length : Int) > e.max_memory then
    { e with context_memory := pyTakeLast e.context_memory e.max_memory }
  else e

/-- `add_to_memory`: append `{user_input.lower().strip(), response, now}`,
then `pop(0)` once if the bound is exceeded. -/
def add_to_memory (e : EngineSt) (user_input response now : String) : EngineSt :=
  let mem := e.context_memory ++ [{ user := pyStrip (pyLower user_input), response := response, timestamp := now }]
  let mem := if (mem.length : Int) > e.max_memory then mem.drop 1 else mem
  { e with context_memory := mem }

/-- The persisted snapshot shape `{context_memory, user_profile, max_memory}`
(`to_dict` always produces exactly these three keys). -/
structure LocalSnapshot where
  context_memory : List MemEntry
  user_profile : List (String × String)
  max_memory : Int
deriving DecidableEq, Repr

/-- `to_dict`: copy the three persisted fields (the `except` arm of the
source is unreachable for these total operations). -/
def to_dict (e : EngineSt) : LocalSnapshot :=
  { context_memory := e.context_memory
    user_profile := e.user_profile
    max_memory := e.max_memory }

/-- `load_from_dict` on a well-shaped snapshot (the `isinstance` guards
accept it): take the three fields, clamp `max_memory` to `[5,50]`, trim the
memory if it now exceeds the bound. -/
def load_from_dict (e : EngineSt) (d : LocalSnapshot) : EngineSt :=
  let e := { e with context_memory := d.context_memory }
  let e := { e with user_profile := d.user_profile }
  let e := { e with max_memory := max 5 (min 50 d.max_memory) }
  if (e.context_memory.length : Int) > e.max_memory then
    { e with context_memory := pyTakeLast e.context_memory e.max_memory }
  else e

/-- The `(conservative, balanced, creative)` candidate lists of one
response-pattern category. -/
structure TierLists where
  conservative : List String
  balanced : List String
  creative : List String
deriving DecidableEq, Repr

/-- `patterns[intent].get(creativity_tier, patterns[intent]["balanced"])`:
the tier string produced by `get_creativity_tier` is always one of the
three keys, any other string would fall back to `balanced`. -/
def TierLists.getTier (p : TierLists) (tier : String) : List String :=
  if tier = "conservative" then p.conservative
  else if tier = "balanced" then p.balanced
  else if tier = "creative" then p.creative
  else p.balanced

/-- The `default_responses` category of `load_response_patterns`. -/
def default_responses : TierLists :=
  { conservative := [
      "I see. What would you like to know about that?",
      "That's interesting. How can I help?",
      "Please tell me more about what you need."]
    balanced := [
      "That's interesting! Tell me more about that.",
      "I see! What would you like to know about it?",
      "Fascinating! How can I help you with that?",
      "That sounds intriguing! What specifically interests you about it?"]
    creative := [
      "Ooh, that's got my curiosity circuits firing on all cylinders! Spill the details!",
      "Now THAT sounds like an adventure waiting to happen! What's the scoop?",
      "My interest is officially piqued! Let's dive deep into this rabbit hole together!",
      "You've struck digital gold with that topic! I'm all ears (well, all sensors)!"] }

/-- `load_response_patterns` (`ai_api.py` lines 159-274), as an ordered
key-to-category map. -/
def load_response_patterns : List (String × TierLists) :=
  [("greetings",
    { conservative := [
        "Hello! How can I assist you today?",
        "Hi there! What can I help you with?",
        "Good day! How may I help you?"]
      balanced := [
        "Hello! How can I assist you today?",
        "Hi there! What can I help you with?",
        "Good to see you! What's on your mind?",
        "Hey! Ready to help with whatever you need.",
        "Greetings! How may I be of service?"]
      creative := [
        "Hello there, wonderful human! What adventure shall we embark on today?",
        "Greetings, my friend! What fascinating topic can we explore together?",
        "Hey there! I'm buzzing with excitement to help you with anything!",
        "Well hello! What delightful challenge can I tackle for you today?",
        "Salutations! Ready to dive into whatever's on your brilliant mind!"] }),
   ("how_are_you",
    { conservative := [
        "I'm functioning well, thank you. How are you?",
        "All systems operational. How can I help?",
        "I'm doing fine. What can I do for you?"]
      balanced := [
        "I'm doing great, thank you for asking! How are you?",
        "All systems running smoothly! How's your day going?",
        "Fantastic, thanks! What can I help you accomplish today?",
        "I'm here and ready to help! What's new with you?"]
      creative := [
        "I'm absolutely fantastic! My circuits are practically humming with joy! How's your day treating you?",
        "Couldn't be better! I'm like a digital ray of sunshine today! What's got you curious?",
        "I'm thriving in the digital realm! Every conversation energizes me. How are you doing, my friend?",
        "Spectacular! I'm feeling particularly clever today. What puzzle can we solve together?"] }),
   ("thanks",
    { conservative := [
        "You're welcome. Anything else I can help with?",
        "Glad to help. Is there anything else?",
        "No problem. What else can I do?"]
      balanced := [
        "You're very welcome! Anything else I can help with?",
        "Happy to help! Is there anything else you need?",
        "My pleasure! Let me know if you need anything else.",
        "Glad I could assist! What else can I do for you?"]
      creative := [
        "Absolutely my pleasure! Helping you brightens my entire digital day!",
        "You're so welcome! It's like digital dopamine when I can be useful!",
        "Aww, you're too kind! I live for moments like these. What's next on our agenda?",
        "The pleasure was all mine! I'm practically glowing with satisfaction right now!"] }),
   ("capabilities",
    { conservative := [
        "I can help with weather, web searches, system commands, and conversation.",
        "My functions include weather information, internet searches, and system operations.",
        "I provide weather data, search results, system commands, and general assistance."]
      balanced := [
        "I can help with weather, web searches, system commands, and general conversation!",
        "I'm great at finding information, controlling your system, checking weather, and chatting!",
        "Weather updates, web searches, opening programs, and friendly conversation are my specialties!"]
      creative := [
        "Oh, I'm like a digital Swiss Army knife! Weather wizardry, web search sorcery, system command mastery, and conversation that'll knock your socks off!",
        "I'm your personal digital genie! I grant wishes for weather info, conjure search results from the internet, command your system like magic, and chat with the enthusiasm of a thousand coffee shots!",
        "Think of me as your AI sidekick! I can forecast weather like a meteorologist, search the web faster than you can blink, control your computer like a digital puppeteer, and chat with more personality than a talk show host!"] }),
   ("confused",
    { conservative := [
        "I don't understand. Please clarify.",
        "Could you rephrase that?",
        "Please provide more information."]
      balanced := [
        "I'm not quite sure I understand. Could you rephrase that?",
        "Could you clarify what you're looking for?",
        "I want to help, but I need a bit more information."]
      creative := [
        "Hmm, you've got me scratching my digital head! Could you paint that picture a bit clearer for me?",
        "Oops, my understanding circuits are a bit tangled! Mind rewording that masterpiece?",
        "I'm drawing a delightful blank here! Help me connect the dots with a little more detail?"] }),
   ("default_responses", default_responses)]

/-- `get_creativity_tier`. -/
def get_creativity_tier (e : EngineSt) : String :=
  if e.creativity_level ≤ mkRat 3 10 then "conservative"
  else if e.creativity_level ≤ mkRat 7 10 then "balanced"
  else "creative"

/-- `analyze_intent` (the `recent_context` slice computed in the source is
never used).  Checks run on `message.lower().strip()`, first match wins. -/
def analyze_intent (message : String) : String :=
  let message_lower := pyStrip (pyLower message)
  if ["hello", "hi", "hey", "good morning", "good afternoon", "greetings"].any
      (fun w => pyContains message_lower w) then "greetings"
  else if ["how are you", "how's it going", "how do you feel"].any
      (fun w => pyContains message_lower w) then "how_are_you"
  else if ["thanks", "thank you", "appreciate", "grateful"].any
      (fun w => pyContains message_lower w) then "thanks"
  else if ["good job", "excellent", "amazing", "awesome", "brilliant"].any
      (fun w => pyContains message_lower w) then "compliments"
  else if ["what can you do", "your abilities", "your capabilities", "help me"].any
      (fun w => pyContains message_lower w) then "capabilities"
  else if ["bye", "goodbye", "see you", "farewell", "exit"].any
      (fun w => pyContains message_lower w) then "farewells"
  else if message_lower.length < 15 && pyContains message_lower "?" then "confused"
  else "default"

/-- Outcomes of the `random` module consumed by one `generate_response`
call, supplied as an oracle: `choicesW l w` models `random.choices(l,
weights=w)[0]`, `sample2 l` models `random.sample(l, 2)`, `choice l`
models `random.choice(l)`, and the two rolls model the two
`random.random()` call sites. -/
structure RandomOracle where
  choicesW : List String → List Nat → String
  mixRoll : ℚ
  sample2 : List String → String × String
  choice : List String → String
  flourishRoll : ℚ
  flourishChoice : List String → String

/-- `weights = base + [pad]*(len(responses)-|base|)` then `weights[:len]`. -/
def mkWeights (base : List Nat) (pad n : Nat) : List Nat :=
  (base ++ List.replicate (n - base.length) pad).take n

/-- `select_response` (`ai_api.py` lines 310-338). -/
def select_response (level : ℚ) (r : RandomOracle) : List String → String
  | [] => "I'm here to help!"
  | r0 :: rest =>
    let responses := r0 :: rest
    if level ≤ mkRat 3 10 then r0
    else if level ≤ mkRat 1 2 then r.choicesW responses (mkWeights [3, 2, 1] 1 responses.length)
    else if level ≤ mkRat 7 10 then r.choicesW responses (mkWeights [2, 2, 2, 1, 1] 1 responses.length)
    else if level ≤ mkRat 4 5 then r.choicesW responses (mkWeights [1, 1, 2, 2, 3] 2 responses.length)
    else if 1 < responses.length && decide (r.mixRoll < mkRat 1 10) then
      let s := r.sample2 responses
      s.1 ++ " " ++ pyLower s.2
    else r.choice responses

/-- The flourish list of `generate_response`. -/
def flourishes : List String :=
  [" amazing", " spectacular", " fantastic", " wonderful", " brilliant",
   " awesome", " incredible", " extraordinary"]

/-- `generate_response` (`ai_api.py` lines 340-377).  Returns the response
together with the updated engine state; the best-effort disk write gated by
`remember_local_profile` has no effect on either. -/
def generate_response (e : EngineSt) (r : RandomOracle) (now message : String) :
    String × EngineSt :=
  let intent := analyze_intent message
  let creativity_tier := get_creativity_tier e
  let responses :=
    match load_response_patterns.lookup intent with
    | some p => p.getTier creativity_tier
    | none => default_responses.getTier creativity_tier
  let response := select_response e.creativity_level r responses
  let e := add_to_memory e message response now
  let response :=
    if e.creativity_level > mkRat 4 5 && decide (r.flourishRoll < mkRat 15 100) then
      response ++ r.flourishChoice flourishes
    else response
  (response, e)

/-! ## Model catalog (`ai_api.py` lines 1371-1450) -/

/-- One catalog entry.  `type` is a Lean keyword, so the field is `mtype`. -/
structure ModelInfo where
  name : String
  mtype : String
  provider : String
  description : String
  features : List String
  status : String
  download_command : Option String := none
deriving DecidableEq, Repr

/-- The `local_engine` catalog entry, also the `.get` default used all over
`call_ai_api`. -/
def local_engine_info : ModelInfo :=
  { name := "Local Conversation Engine"
    mtype := "local"
    provider := "local"
    description := "Fast local responses with advanced pattern matching and creativity controls"
    features := ["instant_response", "offline", "privacy", "creativity_control",
                 "weather_integration", "web_search", "system_commands"]
    status := "active" }

/-- `get_available_models()`: the static catalog, in source order. -/
def get_available_models : List (String × ModelInfo) :=
  [("local_engine", local_engine_info),
   ("local/mistral-7b-instruct",
    { name := "Mistral 7B", mtype := "local", provider := "local"
      description := "Local 7B parameter model with excellent performance, runs entirely on your hardware"
      features := ["conversation", "reasoning", "instruction_following", "code_generation", "offline", "privacy"]
      status := "not_downloaded", download_command := some "ollama pull mistral" }),
   ("local/llama-3.1-8b-instruct",
    { name := "Llama 3.1 8B", mtype := "local", provider := "local"
      description := "Latest local 8B model with strong reasoning capabilities, runs entirely on your hardware"
      features := ["reasoning", "conversation", "instruction_following", "knowledge_retrieval", "offline", "privacy"]
      status := "not_downloaded", download_command := some "ollama pull llama3.1" }),
   ("local/qwen-2.5-7b-instruct",
    { name := "Qwen 2.5 7B", mtype := "local", provider := "local"
      description := "Local 7B model with strong multilingual capabilities, runs entirely on your hardware"
      features := ["multilingual", "conversation", "reasoning", "instruction_following", "offline", "privacy"]
      status := "not_downloaded", download_command := some "ollama pull qwen2.5:7b" }),
   ("local/deepseek-coder-6.7b",
    { name := "DeepSeek Coder 6.7B", mtype := "local", provider := "local"
      description := "Local 6.7B model optimized for coding and programming tasks, runs entirely on your hardware"
      features := ["code_generation", "programming_assistance", "debugging", "offline", "privacy"]
      status := "not_downloaded", download_command := some "ollama pull deepseek-coder:6.7b" }),
   ("deepseek/deepseek-r1-0528:free",
    { name := "DeepSeek R1", mtype := "openrouter", provider := "openrouter"
      description := "DeepSeek's latest conversational model optimized for chat interactions and instruction following"
      features := ["conversation", "instruction_following", "reasoning", "multilingual"]
      status := "available" }),
   ("openai/gpt-oss-20b:free",
    { name := "OpenAI GPT-OSS 20B", mtype := "openrouter", provider := "openrouter"
      description := "Open-source 20B parameter language model based on GPT architecture with strong general-purpose capabilities"
      features := ["conversation", "reasoning", "code_generation", "knowledge_retrieval", "multilingual"]
      status := "available" }),
   ("openai/gpt-oss-120b:free",
    { name := "OpenAI GPT-OSS 120B", mtype := "openrouter", provider := "openrouter"
      description := "Larger GPT-OSS 120B parameter model for more demanding reasoning and generation tasks"
      features := ["conversation", "reasoning", "code_generation", "knowledge_retrieval", "multilingual"]
      status := "available" })]

/-- `available_models.get(current_model, available_models['local_engine'])`. -/
def catalogGetD (mid : String) : ModelInfo :=
  (get_available_models.lookup mid).getD local_engine_info

/-! ## SettingsManager status cache (`app.py` lines 790-880) -/

/-- A `model_errors` record: `{'error': str, 'timestamp': float}`. -/
structure ErrRec where
  error : String
  timestamp : Nat
deriving DecidableEq, Repr

/-- Python-dict assignment `d[k] = v` on an insertion-ordered association
list: overwrite in place when the key exists, else append. -/
def aListSet {α : Type} (l : List (String × α)) (k : String) (v : α) : List (String × α) :=
  if (l.lookup k).isSome then
    l.map (fun p => if p.1 = k then (k, v) else p)
  else l ++ [(k, v)]

/-- The `SettingsManager` fields the routing core reads and writes.  Each
settings key is modelled at the type the reader coerces it to
(`int(...)` / `_to_bool(...)` / `or ''`); `settings['model_errors']` is the
persistent mirror of `model_errors`. -/
structure SettingsSt where
  retry_attempts : Int := 2
  auto_fallback : Bool := true
  alt_attempt_cap : Int := 3
  ignore_status_pings : Bool := false
  alternate_priority : String := ""
  available_models : Option (List (String × ModelInfo)) := none
  current_ai_model : String := "local_engine"
  model_errors : List (String × ErrRec) := []
  model_status : List (String × String) := []
  persisted_model_errors : List (String × ErrRec) := []
deriving Repr

/-- `SettingsManager.set_model_error` (`app.py` lines 844-858): store the
error string verbatim, set status `paused` when it mentions "paused", else
`error`, and mirror the record into the persisted settings. -/
def SM_set_model_error (s : SettingsSt) (model_id error : String) (t : Nat) : SettingsSt :=
  let rec1 : ErrRec := { error := error, timestamp := t }
  { s with
    model_errors := aListSet s.model_errors model_id rec1
    model_status := aListSet s.model_status model_id
      (if pyContains (pyLower error) "paused" then "paused" else "error")
    persisted_model_errors := aListSet s.persisted_model_errors model_id rec1 }

/-- `SettingsManager.get_model_error`. -/
def SM_get_model_error (s : SettingsSt) (model_id : String) : Option ErrRec :=
  s.model_errors.lookup model_id

/-- `SettingsManager.get_model_status`: default `available`. -/
def SM_get_model_status (s : SettingsSt) (model_id : String) : String :=
  (s.model_status.lookup model_id).getD "available"

/-- `SettingsManager.clear_model_error` (`app.py` lines 872-880); the
`save_settings()` disk write is effect-free here. -/
def SM_clear_model_error (s : SettingsSt) (model_id : String) : SettingsSt :=
  let s := if (s.model_errors.lookup model_id).isSome then
      { s with model_errors := s.model_errors.filter (fun p => p.1 ≠ model_id) }
    else s
  let s := if (s.model_status.lookup model_id).isSome then
      { s with model_status := aListSet s.model_status model_id "available" }
    else s
  if (s.persisted_model_errors.lookup model_id).isSome then
    { s with persisted_model_errors := s.persisted_model_errors.filter (fun p => p.1 ≠ model_id) }
  else s

/-! ## Remote client outcomes and the router environment -/

/-- The Python exception values `call_ai_api` can observe from one remote
call: `HFRequestError(status, msg)`, a `requests` timeout, the
`RuntimeError`s raised by `query_model` for paused/loading/parse failures,
a `NameError` (an undefined identifier), or any other exception.  `pyStr`
below is Python's `str(e)` for each of them. -/
inductive PyExc where
  | hfError (status : Int) (msg : String)
  | timeoutExc (msg : String)
  | runtime (msg : String)
  | nameError (msg : String)
  | generic (msg : String)
deriving DecidableEq, Repr

/-- `str(e)`: every constructor above carries its message
(`HFRequestError.__init__` passes it to `Exception.__init__`). -/
def pyStr : PyExc → String
  | .hfError _ m => m
  | .timeoutExc m => m
  | .runtime m => m
  | .nameError m => m
  | .generic m => m

/-- Outcome of one `query_model` call: the returned text, or the exception
it raises. -/
inductive RemoteResult where
  | ok (text : String)
  | err (e : PyExc)
deriving DecidableEq, Repr

/-- The `advanced_settings` module globals read by `call_ai_api`
(`response_delay` only delays, `conversation_memory` is not read there). -/
structure Advanced where
  enable_search : Bool := true
  enable_system_commands : Bool := true
  search_results_limit : Int := 3
  current_model : String := "local_engine"
  remember_local_profile : Bool := true
deriving Repr

/-- Read-only oracles for one `call_ai_api` invocation: the `k`-th remote
call's outcome, the result of the `k`-th `reload_openrouter_token_from_env`,
the `random` draws, the external weather / search / OS-command collaborators
(`get_weather`, `enhanced_web_search`, `execute_system_command` — each
catches or produces its own result; `execute_system_command` returns `none`
when no command matches), the parsed `HF_ALT_MODELS` environment list, and
the clock values used for memory entries and error records. -/
structure World where
  remote : Nat → RemoteResult
  reloadOk : Nat → Bool
  rng : RandomOracle
  weatherFn : String → String
  searchFn : String → Int → String
  sysFn : String → Option String
  env_alt_models : List String
  now : String
  nowT : Nat

/-- The mutable state one `call_ai_api` invocation threads: the
conversation engine, the optional `settings_manager`, the
`advanced_settings` globals, plus the trace of remote model calls and
token reloads performed so far. -/
structure St where
  engine : EngineSt
  settings : Option SettingsSt
  advanced : Advanced
  calls : List String := []
  reloads : Nat := 0

/-- Perform one remote call: record the target model id and consume the
next oracle outcome. -/
def doRemote (w : World) (st : St) (mid : String) : RemoteResult × St :=
  (w.remote st.calls.length, { st with calls := st.calls ++ [mid] })

/-- Perform one `reload_openrouter_token_from_env()` call. -/
def doReload (w : World) (st : St) : Bool × St :=
  (w.reloadOk st.reloads, { st with reloads := st.reloads + 1 })

/-- `try: settings_manager.set_model_error(...) except: pass` — when the
manager is `None` the attribute access raises and is swallowed. -/
def setModelErrorSafe (st : St) (t : Nat) (mid err : String) : St :=
  match st.settings with
  | some s => { st with settings := some (SM_set_model_error s mid err t) }
  | none => st

/-- `if settings_manager is not None: settings_manager.clear_model_error(...)`. -/
def clearModelErrorIf (st : St) (mid : String) : St :=
  match st.settings with
  | some s => { st with settings := some (SM_clear_model_error s mid) }
  | none => st

/-! ## Primary attempt loop (`ai_api.py` lines 1156-1219) -/

/-- What one iteration of the primary retry loop does to control flow:
`return` a response, `break` to the fallback stages, or `continue`. -/
inductive StepOut where
  | retS (resp : String)
  | brk (lastErr : String)
  | cont (didReload : Bool) (lastErr : String)
deriving Repr

/-- Tail of the `except` handler after the auth-recovery check: break on a
non-transient error, otherwise continue the retry loop. -/
def primary_fail_tail (lower lastErr : String) (didReload : Bool) (st : St) : StepOut × St :=
  let transient := pyContains lower "paused" || pyContains lower "loading" ||
      pyContains lower "rate limit" || pyContains lower "429"
  if !transient then (StepOut.brk lastErr, st)
  else (StepOut.cont didReload lastErr, st)

/-- The `except Exception as e` handler of the primary loop: record the
error, attempt the one-time token reload on an auth-looking error, then
decide continue/break. -/
def primary_fail (w : World) (mid : String) (didReload : Bool) (e : PyExc) (st : St) :
    StepOut × St :=
  let lastErr := pyStr e
  let st := setModelErrorSafe st w.nowT mid lastErr
  let lower := pyLower lastErr
  let auth_error := pyContains lower "authentication" || pyContains lower "authorization" ||
      pyContains lower "401" || pyContains lower "403"
  if auth_error && !didReload then
    let pr := doReload w st
    if pr.1 then (StepOut.cont true lastErr, pr.2)
    else primary_fail_tail lower lastErr didReload pr.2
  else primary_fail_tail lower lastErr didReload st

/-- One iteration of the primary loop body (the backoff sleep only delays;
the provider read selects between two identical `openrouter_api` calls). -/
def primary_step (w : World) (mid name : String) (didReload : Bool) (st : St) :
    StepOut × St :=
  let provider := ((get_available_models.lookup mid).map (fun i => i.provider)).getD "openrouter"
  let pr := if provider = "openrouter" then doRemote w st mid else doRemote w st mid
  match pr.1 with
  | RemoteResult.ok text =>
    if pyStrip text = "" then
      -- `raise Exception("Empty response from OpenRouter model")`, re-using
      -- the error handler path
      primary_fail w mid didReload (PyExc.generic "Empty response from OpenRouter model") pr.2
    else
      let st := clearModelErrorIf pr.2 mid
      (StepOut.retS (text ++ using_suffix name), st)
  | RemoteResult.err e => primary_fail w mid didReload e pr.2

/-- `for attempt in range(attempts)` over `primary_step`.  Returns the
early-return response (if any), the `last_err` seen, and the final state. -/
def primary_loop (w : World) (mid name : String) :
    Nat → Bool → Option String → St → Option String × Option String × St
  | 0, _, lastErr, st => (none, lastErr, st)
  | fuel + 1, didReload, lastErr, st =>
    match primary_step w mid name didReload st with
    | (StepOut.retS r, st) => (some r, lastErr, st)
    | (StepOut.brk le, st) => (none, some le, st)
    | (StepOut.cont dr le, st) => primary_loop w mid name fuel dr (some le) st

/-- `attempts`: default 2; overridden by a positive configured
`retry_attempts` when a settings manager is present (`0` is falsy and
keeps the default). -/
def effective_attempts (settings : Option SettingsSt) : Nat :=
  match settings with
  | none => 2
  | some s => if s.retry_attempts > 0 then s.retry_attempts.toNat else 2

/-! ## Alternates walk (`ai_api.py` lines 1220-1351) -/

/-- Stable insertion of `x` into a list sorted on `key` (equal keys keep
insertion order), used to model Python's stable `list.sort(key=...)`. -/
def insertOn {α : Type} (key : α → Nat) (x : α) : List α → List α
  | [] => [x]
  | y :: ys => if key x < key y then x :: y :: ys else y :: insertOn key x ys

/-- Python's stable sort by key. -/
def stableSortOn {α : Type} (key : α → Nat) (l : List α) : List α :=
  l.foldl (fun acc x => insertOn key x acc) []

/-- `pr_index = {mid: i for i, mid in enumerate(priority)}` then
`.get(mid, len(priority))`: for duplicate priority entries the dict keeps
the LAST index. -/
def prIndexLast (priority : List String) (mid : String) : Nat :=
  match (priority.reverse.findIdx? (fun p => p == mid)) with
  | some i => priority.length - 1 - i
  | none => priority.length

/-- `priority.index(mid) if mid in priority else len(priority)`: the FIRST
index. -/
def prIndexFirst (priority : List String) (mid : String) : Nat :=
  match priority.findIdx? (fun p => p == mid) with
  | some i => i
  | none => priority.length

/-- The alternate-candidate filter: other models of type/provider
`openrouter` in the UI-visible catalog. -/
def or_filter (current : String) (p : String × ModelInfo) : Bool :=
  p.1 ≠ current && p.2.mtype == "openrouter" && p.2.provider == "openrouter"

/-- `_get_ui_available_models()`: the settings-declared map when present
and non-empty, else the backend catalog. -/
def ui_available_models (st : St) : List (String × ModelInfo) :=
  match st.settings with
  | some s =>
    match s.available_models with
    | some m => if m ≠ [] then m else get_available_models
    | none => get_available_models
  | none => get_available_models

/-- The first alternates loop (`ai_api.py` lines 1272-1300).  Its body
evaluates `hf_api.query_model(...)`, but `hf_api` is not defined anywhere
in the module, so every iteration raises `NameError` before any remote
call; `except HFRequestError` does not match a `NameError`, the generic
`except Exception` does, so each candidate increments `tried` and the loop
continues.  The loop therefore only burns budget: `tried` grows by one per
candidate until the cap, with no remote call and no possible success. -/
def alt_walk1 (cap : Int) : List (String × ModelInfo) → Int → Int
  | [], tried => tried
  | _ :: rest, tried =>
    if tried ≥ cap then tried
    else alt_walk1 cap rest (tried + 1)

/-- `settings_manager.set('current_ai_model', alt_id)` plus
`update_advanced_settings({'current_model': alt_id})` (the sticky switch). -/
def autoswitch (st : St) (alt : String) : St :=
  let st :=
    match st.settings with
    | some s => { st with settings := some { s with current_ai_model := alt } }
    | none => st
  { st with advanced := { st.advanced with current_model := alt } }

/-- The second ("direct") alternates loop (`ai_api.py` lines 1322-1347).
On success it auto-switches and returns.  On ANY exception from
`query_model`, Python first evaluates the clause
`except OpenRouterRequestError` — a name that is not defined in the module
— which raises `NameError`; that exception escapes the loop and is
swallowed by the surrounding `except Exception: pass` (line 1350), so the
first failing candidate aborts the whole walk (the 404-skip written in the
source is unreachable). -/
def alt_walk2 (w : World) (cap : Int) (current : String)
    (ui : List (String × ModelInfo)) :
    List String → Int → St → Option String × St
  | [], _, st => (none, st)
  | alt :: rest, tried, st =>
    if alt == current || tried ≥ cap then alt_walk2 w cap current ui rest tried st
    else
      let pr := doRemote w st alt
      match pr.1 with
      | RemoteResult.ok resp =>
        let st := autoswitch pr.2 alt
        let alt_name := ((ui.lookup alt).map (fun i => i.name)).getD alt
        (some (resp ++ using_suffix (alt_name ++ " (Auto-switched)")), st)
      | RemoteResult.err _ => (none, pr.2)

/-- The whole alternates region (`ai_api.py` lines 1220-1351): read the
recovery settings (defaults when no manager), decide whether to proceed,
build and order the candidate lists, then run the two loops.  `none` means
fall through to the local fallback. -/
def alternates_region (w : World) (current : String) (lastErr : Option String) (st : St) :
    Option String × St :=
  let lower := pyLower (lastErr.getD "")
  let auto_fb := match st.settings with | some s => s.auto_fallback | none => true
  let cap : Int := match st.settings with | some s => s.alt_attempt_cap | none => 3
  let ignore_pings := match st.settings with | some s => s.ignore_status_pings | none => false
  let priority_raw := match st.settings with | some s => s.alternate_priority | none => ""
  let proceed_to_alts := pyContains lower "paused" || pyContains lower "loading"
  let proceed_to_alts := if ignore_pings then true else proceed_to_alts
  if auto_fb && cap > 0 && proceed_to_alts then
    let ui := ui_available_models st
    let alt_models := ui.filter (or_filter current)
    let priority := ((pySplit priority_raw ",").map pyStrip).filter (fun p => p ≠ "")
    let alt_models :=
      if priority ≠ [] then stableSortOn (fun p => prIndexLast priority p.1) alt_models
      else alt_models
    let tried := alt_walk1 cap alt_models 0
    if tried < cap then
      let env_alts := w.env_alt_models
      let d0 := env_alts.filter (fun alt =>
        alt ≠ current &&
        (match ui.lookup alt with
         | some i => i.mtype == "openrouter" && i.provider == "openrouter"
         | none => false))
      let direct_list := if d0 = [] then (ui.filter (or_filter current)).map (fun p => p.1) else d0
      let direct_list :=
        if priority ≠ [] then stableSortOn (fun mid => prIndexFirst priority mid) direct_list
        else direct_list
      alt_walk2 w cap current ui direct_list tried st
    else (none, st)
  else (none, st)

/-- The whole `openrouter` branch of `call_ai_api` (`ai_api.py` lines
1154-1359): primary retry loop, then alternates, then the local fallback
with the one-line error summary embedded in a synthetic prompt. -/
def openrouter_branch (w : World) (st : St) (current name origMsg : String) : String × St :=
  let attempts := effective_attempts st.settings
  let plr := primary_loop w current name attempts false none st
  match plr.1 with
  | some r => (r, plr.2.2)
  | none =>
    let lastErr := plr.2.1
    let ar := alternates_region w current lastErr plr.2.2
    match ar.1 with
    | some r => (r, ar.2)
    | none =>
      let fallback_msg := "OpenRouter model error: " ++
        (match lastErr with
         | some le => if le = "" then "unknown error" else (pySplit le "\n").headD le
         | none => "unknown error")
      let gr := generate_response ar.2.engine w.rng w.now
        ("[SYSTEM: " ++ fallback_msg ++ "] " ++ origMsg)
      (gr.1 ++ using_suffix "Local Conversation Engine (Fallback)",
       { ar.2 with engine := gr.2 })

/-! ## Intent dispatch inside `call_ai_api` (`ai_api.py` lines 1003-1145) -/

/-- The fixed "what model are you" phrasings. -/
def model_questions : List String :=
  ["what model are you", "which model are you", "what ai model", "which ai model",
   "what model do you use", "which model do you use", "what are you using",
   "tell me your model", "identify your model", "current model"]

/-- The fixed "who are you" phrasings. -/
def identity_questions : List String :=
  ["who are you", "what are you", "tell me about yourself", "introduce yourself",
   "who is luna", "what is luna"]

/-- The model/identity question path (lines 1016-1029): answers with the
current model's metadata, phrased by creativity level. -/
def identity_section (creativity : ℚ) (current ml : String) : Option String :=
  if model_questions.any (fun q => pyContains ml q) ||
     identity_questions.any (fun q => pyContains ml q) then
    let info := catalogGetD current
    let model_name := info.name
    let model_type := info.mtype
    let description := info.description
    some ((if creativity > mkRat 7 10 then
        "I'm currently running on " ++ model_name ++ "! It's a " ++ model_type ++
        " model. " ++ description ++ " I'm ready to help you with whatever you need!"
      else
        "I am currently using " ++ model_name ++ ", which is a " ++ model_type ++
        " model. " ++ description)
      ++ using_suffix model_name)
  else none

/-- City extraction of the weather path: the `" in <city>"` clause when
present (Python's `split(" in ")[1]`, i.e. the text up to any second
`" in "`), else the default city; spaces become commas. -/
def extract_city (ml : String) : String :=
  if pyContains ml " in " then
    let city_part := pyStrip ((pySplit ml " in ").getD 1 "")
    if city_part ≠ "" then pyReplace city_part " " "," else "Beavercreek,Ohio"
  else "Beavercreek,Ohio"

/-- The weather path (lines 1031-1043). -/
def weather_section (w : World) (current ml : String) : Option String :=
  if pyContains ml "weather" then
    some (w.weatherFn (extract_city ml) ++ using_suffix (catalogGetD current).name)
  else none

/-- The search trigger keywords, in source order (first hit wins). -/
def search_keywords : List String :=
  ["search", "look up", "find", "google", "what is", "who is", "when is", "where is",
   "tell me about", "information about", "search for", "find out", "lookup",
   "nfl", "football", "sports", "baseball", "basketball", "soccer", "hockey",
   "news", "latest", "recent", "current", "today", "update", "score", "game",
   "how to", "tutorial", "guide", "learn", "explain", "define", "meaning of"]

/-- The keyword scan of the search path: first matching keyword sets the
flag and, for the two extraction groups, replaces the query with the text
after the keyword when non-blank. -/
def search_scan (ml : String) : Bool × String :=
  match search_keywords.find? (fun kw => pyContains ml kw) with
  | none => (false, ml)
  | some kw =>
    if ["search for", "search", "look up", "find", "google"].contains kw ||
       ["what is", "who is", "when is", "where is", "tell me about", "information about"].contains kw then
      let parts := pySplit1 ml kw
      if parts.length > 1 && pyStrip (parts.getD 1 "") ≠ "" then
        (true, pyStrip (parts.getD 1 ""))
      else (true, ml)
    else (true, ml)

/-- `re.search` for the fixed WH-question patterns, each of the shape
`head.+(?:alt|...)`: some occurrence of a head, a non-empty gap free of
newlines (`.` does not match `\n`), then one of the alternatives. -/
def gapMatch (s : List Char) (heads tails : List String) : Bool :=
  (List.range (s.length + 1)).any (fun i =>
    heads.any (fun h =>
      h.data.isPrefixOf (s.drop i) &&
      (List.range (s.length + 1)).any (fun j =>
        decide (i + h.length + 1 ≤ j) &&
        tails.any (fun t => t.data.isPrefixOf (s.drop j)) &&
        ((s.drop (i + h.length)).take (j - (i + h.length))).all (fun c => c ≠ '\n'))))

/-- The seven `question_patterns` regexes of lines 1073-1081. -/
def question_patterns_match (ml : String) : Bool :=
  let s := ml.data
  gapMatch s ["what"] ["is", "are", "was", "were", "will be", "does", "do", "did"] ||
  gapMatch s ["who"] ["is", "are", "was", "were", "will be"] ||
  gapMatch s ["when"] ["is", "are", "was", "were", "will be", "did", "does", "do"] ||
  gapMatch s ["where"] ["is", "are", "was", "were", "will be"] ||
  gapMatch s ["how"] ["is", "are", "was", "were", "will be", "do", "does", "did", "to"] ||
  gapMatch s ["why"] ["is", "are", "was", "were", "will be", "do", "does", "did"] ||
  gapMatch s ["nfl", "football", "sports", "baseball", "basketball"]
    ["score", "game", "news", "update", "today", "latest"]

/-- The sports terms that force a search. -/
def sports_terms : List String :=
  ["nfl", "football", "baseball", "basketball", "soccer", "hockey", "sports"]

/-- The search path (lines 1045-1119), including the search-disabled
notice branch.  `none` means fall through to the next section. -/
def search_section (w : World) (search_enabled : Bool) (search_limit : Int)
    (creativity : ℚ) (current ml : String) : Option String :=
  if search_enabled then
    let scan := search_scan ml
    let is_sq := scan.1 || question_patterns_match ml
    let hit_sports := sports_terms.any (fun t => pyContains ml t)
    let is_sq := is_sq || hit_sports
    let search_query :=
      if hit_sports then
        if pyContains ml "search the nfl" then "NFL news today latest scores"
        else if pyContains ml "nfl" &&
            !(["score", "news", "game", "today"].any (fun wd => pyContains ml wd)) then
          "NFL " ++ pyStrip (pyReplace ml "nfl" "") ++ " latest news"
        else scan.2
      else scan.2
    if is_sq then
      let search_query := pyStrip (pyLstripSet search_query "about for the")
      if search_query ≠ "" && search_query.length > 2 then
        some (w.searchFn search_query search_limit ++ using_suffix (catalogGetD current).name)
      else none
    else none
  else
    if ["search", "google", "find", "look up"].any (fun kw => pyContains ml kw) then
      some ((if creativity > mkRat 7 10 then
          "Web search is currently taking a digital vacation! You can re-enable it in the advanced settings if you'd like to explore the internet together."
        else
          "Web search is currently disabled. You can enable it in the advanced settings.")
        ++ using_suffix (catalogGetD current).name)
    else none

/-- The system-command path (lines 1121-1145).  `execute_system_command`
launches OS programs; it is the external OS collaborator, modelled by the
`sysFn` oracle returning the source's `None`-or-text result. -/
def system_section (w : World) (system_enabled : Bool) (creativity : ℚ)
    (current ml : String) : Option String :=
  if system_enabled then
    match w.sysFn ml with
    | some r => some (r ++ using_suffix (catalogGetD current).name)
    | none => none
  else
    if ["open ", "volume", "screenshot", "notepad", "calculator",
        "browser", "chrome", "explorer", "file manager"].any (fun t => pyContains ml t) then
      some ((if creativity > mkRat 7 10 then
          "System commands are currently disabled for safety. You can re-enable them in the advanced settings if you want me to control apps or volume."
        else
          "System commands are disabled. You can enable them in the advanced settings.")
        ++ using_suffix (catalogGetD current).name)
    else none

/-- The `try:` block of lines 1153-1365: route to the OpenRouter branch or
the local engine.  Every raise site inside the source's block is caught on
the modelled paths, so the result is always `ok`; the `Except` shape keeps
the source's handler explicit in `call_ai_api`. -/
def try_model_branch (w : World) (st : St) (current name origMsg : String) :
    Except PyExc (String × St) :=
  if (catalogGetD current).mtype = "openrouter" then
    Except.ok (openrouter_branch w st current name origMsg)
  else
    let gr := generate_response st.engine w.rng w.now origMsg
    let st := { st with engine := gr.2 }
    let st := clearModelErrorIf st current
    Except.ok (gr.1 ++ using_suffix name, st)

/-- `call_ai_api` (`ai_api.py` lines 984-1369).  The response-delay sleep
only delays.  Argument defaults follow the source: `enable_search` /
`enable_system_commands` test `is not None`, while `search_results_limit`
and `model_id` use `or` (so falsy `0` / `""` fall back to the globals). -/
def call_ai_api (w : World) (st : St) (message : String)
    (enable_search enable_system_commands : Option Bool)
    (search_results_limit : Option Int) (model_id : Option String) : String × St :=
  let search_enabled := enable_search.getD st.advanced.enable_search
  let system_enabled := enable_system_commands.getD st.advanced.enable_system_commands
  let search_limit :=
    match search_results_limit with
    | some n => if n ≠ 0 then n else st.advanced.search_results_limit
    | none => st.advanced.search_results_limit
  let current_model :=
    match model_id with
    | some s => if s ≠ "" then s else st.advanced.current_model
    | none => st.advanced.current_model
  let original_message := message
  let message_lower := pyStrip (pyLower message)
  match identity_section st.engine.creativity_level current_model message_lower with
  | some r => (r, st)
  | none =>
    match weather_section w current_model message_lower with
    | some r => (r, st)
    | none =>
      match search_section w search_enabled search_limit st.engine.creativity_level
          current_model message_lower with
      | some r => (r, st)
      | none =>
        match system_section w system_enabled st.engine.creativity_level
            current_model message_lower with
        | some r => (r, st)
        | none =>
          let model_name := (catalogGetD current_model).name
          match try_model_branch w st current_model model_name original_message with
          | Except.ok res => res
          | Except.error _ =>
            ("I'm having trouble connecting to any AI models right now. Please try again later."
              ++ using_suffix model_name, st)

/-- `get_current_model_info` (`ai_api.py` lines 1499-1503). -/
def get_current_model_info (st : St) : ModelInfo :=
  catalogGetD st.advanced.current_model

/-! ## Helper lemmas -/

lemma lookup_aListSet_isSome {α : Type} (l : List (String × α)) (k : String) (v : α)
    (h : (l.lookup k).isSome) :
    (l.map (fun p => if p.1 = k then (k, v) else p)).lookup k = some v := by
  induction l with
  | nil => simp [List.lookup] at h
  | cons p tl ih =>
    obtain ⟨pk, pv⟩ := p
    by_cases hk : pk = k
    · subst hk
      have hif : (if (pk, pv).1 = pk then (pk, v) else (pk, pv)) = (pk, v) := if_pos rfl
      rw [List.map_cons, hif]
      simp [List.lookup]
    · have hk' : (k == pk) = false := by
        simp only [beq_eq_false_iff_ne, ne_eq]
        exact fun he => hk he.symm
      simp only [List.lookup, hk'] at h
      have hif : (if (pk, pv).1 = k then (k, v) else (pk, pv)) = (pk, pv) := if_neg hk
      rw [List.map_cons, hif]
      simp only [List.lookup, hk']
      exact ih h

lemma lookup_append_single {α : Type} (l : List (String × α)) (k : String) (v : α)
    (h : (l.lookup k).isSome = false) :
    (l ++ [(k, v)]).lookup k = some v := by
  induction l with
  | nil => simp [List.lookup]
  | cons p tl ih =>
    obtain ⟨pk, pv⟩ := p
    by_cases hk : k = pk
    · simp [List.lookup, hk] at h
    · have hk' : (k == pk) = false := by simp [hk]
      simp only [List.lookup, hk'] at h
      simpa [List.lookup, hk'] using ih h

/-- Dict assignment then lookup on the same key yields the written value. -/
lemma lookup_aListSet {α : Type} (l : List (String × α)) (k : String) (v : α) :
    (aListSet l k v).lookup k = some v := by
  unfold aListSet
  by_cases h : (l.lookup k).isSome
  · simp only [h, if_true]
    exact lookup_aListSet_isSome l k v h
  · simp only [Bool.not_eq_true] at h
    simp only [h, Bool.false_eq_true, if_false]
    exact lookup_append_single l k v h

/-! ## C5 — the status cache's error setter -/

/-- C5 (counterexample): calling `set_model_error` with the empty error
string stores status `error` (not `available`) but an EMPTY error message —
no generic phrase is substituted, refuting the claim that the stored record
always carries a non-empty message. -/
theorem c5_counterexample :
    SM_get_model_status (SM_set_model_error {} "m" "" 0) "m" = "error" ∧
    SM_get_model_error (SM_set_model_error {} "m" "" 0) "m" =
      some { error := "", timestamp := 0 } := by
  constructor <;> decide

/-- C5 (amended): for every model id and error string, `set_model_error`
stores a status of `paused` (when the lower-cased error mentions "paused")
or `error` — never `available` — and the stored error record carries
exactly the supplied string and timestamp; no generic-phrase defaulting
happens in this setter. -/
theorem c5_set_model_error_status_and_verbatim_message
    (s : SettingsSt) (mid err : String) (t : Nat) :
    SM_get_model_status (SM_set_model_error s mid err t) mid ≠ "available" ∧
    SM_get_model_status (SM_set_model_error s mid err t) mid =
      (if pyContains (pyLower err) "paused" then "paused" else "error") ∧
    SM_get_model_error (SM_set_model_error s mid err t) mid =
      some { error := err, timestamp := t } := by
  have hstat : SM_get_model_status (SM_set_model_error s mid err t) mid =
      (if pyContains (pyLower err) "paused" then "paused" else "error") := by
    unfold SM_get_model_status SM_set_model_error
    rw [lookup_aListSet]
    rfl
  refine ⟨?_, hstat, ?_⟩
  · rw [hstat]
    by_cases h : pyContains (pyLower err) "paused" = true <;> simp [h]
  · unfold SM_get_model_error SM_set_model_error
    exact lookup_aListSet ..

/-! ## C6 — conversation-memory bound (FIFO) -/

/-- A sequence of conversation turns `(user_input, response, now)` applied
through `add_to_memory`. -/
def run_turns (e : EngineSt) (turns : List (String × String × String)) : EngineSt :=
  turns.foldl (fun acc t => add_to_memory acc t.1 t.2.1 t.2.2) e

/-- The memory entry one turn produces. -/
def turn_entry (t : String × String × String) : MemEntry :=
  { user := pyStrip (pyLower t.1), response := t.2.1, timestamp := t.2.2 }

lemma add_to_memory_drop (e : EngineSt) (t : String × String × String) (m : Nat)
    (hm : 1 ≤ m) (hmax : e.max_memory = (m : Int)) (done : List MemEntry)
    (hmem : e.context_memory = done.drop (done.length - m)) :
    (add_to_memory e t.1 t.2.1 t.2.2).context_memory =
      (done ++ [turn_entry t]).drop ((done ++ [turn_entry t]).length - m) ∧
    (add_to_memory e t.1 t.2.1 t.2.2).max_memory = (m : Int) := by
  unfold add_to_memory turn_entry
  refine ⟨?_, hmax⟩
  simp only [hmem, hmax]
  by_cases hlen : done.length < m
  · have h0 : done.length - m = 0 := by omega
    have hcond : ¬ ((done.drop (done.length - m) ++
        [({ user := pyStrip (pyLower t.1), response := t.2.1, timestamp := t.2.2 } : MemEntry)]).length : Int) > (m : Int) := by
      simp only [List.length_append, List.length_drop, List.length_singleton, h0]
      omega
    rw [if_neg hcond, h0, List.drop_zero]
    have h1 : (done ++ [({ user := pyStrip (pyLower t.1), response := t.2.1, timestamp := t.2.2 } : MemEntry)]).length - m = 0 := by
      simp only [List.length_append, List.length_singleton]
      omega
    rw [h1, List.drop_zero]
  · have hge : m ≤ done.length := by omega
    have hlendrop : (done.drop (done.length - m)).length = m := by
      simp only [List.length_drop]
      omega
    have hcond : ((done.drop (done.length - m) ++
        [({ user := pyStrip (pyLower t.1), response := t.2.1, timestamp := t.2.2 } : MemEntry)]).length : Int) > (m : Int) := by
      simp only [List.length_append, List.length_singleton, hlendrop]
      omega
    rw [if_pos hcond]
    have hone : 1 ≤ (done.drop (done.length - m)).length := by omega
    rw [List.drop_append_of_le_length hone, List.drop_drop]
    have h2 : (done ++ [({ user := pyStrip (pyLower t.1), response := t.2.1, timestamp := t.2.2 } : MemEntry)]).length - m = (done.length - m) + 1 := by
      simp only [List.length_append, List.length_singleton]
      omega
    rw [h2, List.drop_append_of_le_length (by omega : (done.length - m) + 1 ≤ done.length)]

lemma run_turns_mem (m : Nat) (hm : 1 ≤ m) :
    ∀ (turns : List (String × String × String)) (e : EngineSt),
      e.max_memory = (m : Int) →
      ∀ done : List MemEntry, e.context_memory = done.drop (done.length - m) →
      (run_turns e turns).context_memory =
        (done ++ turns.map turn_entry).drop ((done ++ turns.map turn_entry).length - m) ∧
      (run_turns e turns).max_memory = (m : Int) := by
  intro turns
  induction turns with
  | nil =>
    intro e hmax done hmem
    simpa [run_turns] using ⟨hmem, hmax⟩
  | cons t ts ih =>
    intro e hmax done hmem
    have hstep := add_to_memory_drop e t m hm hmax done hmem
    have hrec := ih (add_to_memory e t.1 t.2.1 t.2.2) hstep.2 (done ++ [turn_entry t]) hstep.1
    have hfold : run_turns e (t :: ts) = run_turns (add_to_memory e t.1 t.2.1 t.2.2) ts := rfl
    rw [hfold]
    have hl : (done ++ [turn_entry t]) ++ ts.map turn_entry =
        done ++ (t :: ts).map turn_entry := by
      simp [List.append_assoc]
    rw [hl] at hrec
    exact hrec

/-- C6: starting from empty memory, after `N` turns with `N` greater than
the configured bound (`max_memory ∈ [5,50]`), the memory has length exactly
`max_memory` and holds exactly the most recent turns in order — the oldest
entries were evicted first (FIFO). -/
theorem c6_memory_bound_fifo (e : EngineSt) (turns : List (String × String × String))
    (h5 : 5 ≤ e.max_memory) (h50 : e.max_memory ≤ 50)
    (hstart : e.context_memory = [])
    (hN : (turns.length : Int) > e.max_memory) :
    ((run_turns e turns).context_memory.length : Int) = e.max_memory ∧
    (run_turns e turns).context_memory =
      (turns.map turn_entry).drop (turns.length - e.max_memory.toNat) := by
  set m : Nat := e.max_memory.toNat with hmdef
  have hmax : e.max_memory = (m : Int) := by omega
  have hm1 : 1 ≤ m := by omega
  have hmem0 : e.context_memory = ([] : List MemEntry).drop (([] : List MemEntry).length - m) := by
    simp [hstart]
  have h := run_turns_mem m hm1 turns e hmax [] hmem0
  have hNm : m < turns.length := by omega
  constructor
  · rw [h.1]
    simp only [List.nil_append, List.length_drop, List.length_map]
    omega
  · rw [h.1]
    simp [List.length_map]

/-! ## C7 — snapshot round trip -/

/-- C7: with `max_memory` in `[5,50]` and memory within the bound,
`load_from_dict` after `to_dict` restores `context_memory`, `user_profile`
and `max_memory` exactly, whatever state it is loaded into. -/
theorem c7_snapshot_round_trip (e e0 : EngineSt)
    (h5 : 5 ≤ e.max_memory) (h50 : e.max_memory ≤ 50)
    (hlen : (e.context_memory.length : Int) ≤ e.max_memory) :
    (load_from_dict e0 (to_dict e)).context_memory = e.context_memory ∧
    (load_from_dict e0 (to_dict e)).user_profile = e.user_profile ∧
    (load_from_dict e0 (to_dict e)).max_memory = e.max_memory := by
  unfold load_from_dict to_dict
  have hclamp : max 5 (min 50 e.max_memory) = e.max_memory := by omega
  simp only [hclamp]
  rw [if_neg (not_lt.mpr hlen)]
  exact ⟨rfl, rfl, rfl⟩

/-! ## C8 — conservative creativity is deterministic -/

lemma add_to_memory_creativity (e : EngineSt) (u resp now' : String) :
    (add_to_memory e u resp now').creativity_level = e.creativity_level := rfl

lemma getTier_conservative (p : TierLists) : p.getTier "conservative" = p.conservative := by
  unfold TierLists.getTier
  rw [if_pos rfl]

lemma generate_response_conservative (e : EngineSt) (r : RandomOracle) (now msg : String)
    (h : e.creativity_level ≤ mkRat 3 10) :
    (generate_response e r now msg).1 =
      (match load_response_patterns.lookup (analyze_intent msg) with
       | some p => p.conservative
       | none => default_responses.conservative).headD "I'm here to help!" := by
  have htier : get_creativity_tier e = "conservative" := by
    unfold get_creativity_tier
    rw [if_pos h]
  have hsel : ∀ l : List String,
      select_response e.creativity_level r l = l.headD "I'm here to help!" := by
    intro l
    cases l with
    | nil => rfl
    | cons r0 rest =>
      simp only [select_response]
      rw [if_pos h]
      rfl
  have hfl : (decide (e.creativity_level > mkRat 4 5)) = false := by
    apply decide_eq_false
    intro hgt
    have h45 : mkRat 3 10 < mkRat 4 5 := by decide
    linarith
  simp only [generate_response, htier, add_to_memory_creativity, hfl, Bool.false_and,
    Bool.false_eq_true, if_false, hsel]
  cases hp : load_response_patterns.lookup (analyze_intent msg) with
  | none => simp [getTier_conservative]
  | some p => simp [getTier_conservative]

/-- C8: at creativity level at most 0.3, `generate_response` is
deterministic — it does not consult the random oracle — and returns the
first candidate of the conservative list of the category the intent
analysis matched (categories without a pattern entry use the default
list), with no mixing or flourish appended. -/
theorem c8_conservative_deterministic (e : EngineSt) (r r' : RandomOracle)
    (now now' msg : String) (h : e.creativity_level ≤ mkRat 3 10) :
    (generate_response e r now msg).1 =
      (match load_response_patterns.lookup (analyze_intent msg) with
       | some p => p.conservative
       | none => default_responses.conservative).headD "I'm here to help!" ∧
    (generate_response e r now msg).1 = (generate_response e r' now' msg).1 := by
  refine ⟨generate_response_conservative e r now msg h, ?_⟩
  rw [generate_response_conservative e r now msg h,
    generate_response_conservative e r' now' msg h]

/-! ## Concrete fixtures used by the witnesses -/

/-- A concrete random oracle (always picks heads). -/
def rngW : RandomOracle :=
  { choicesW := fun l _ => l.headD "", mixRoll := mkRat 1 2,
    sample2 := fun l => (l.headD "", l.headD ""), choice := fun l => l.headD "",
    flourishRoll := mkRat 1 2, flourishChoice := fun l => l.headD "" }

/-- A second, different random oracle (always picks the last candidate). -/
def rngW2 : RandomOracle :=
  { choicesW := fun l _ => (l.reverse.headD ""), mixRoll := mkRat 1 100,
    sample2 := fun l => (l.reverse.headD "", l.headD ""),
    choice := fun l => l.reverse.headD "",
    flourishRoll := mkRat 1 100, flourishChoice := fun l => l.reverse.headD "" }

/-- An engine at conservative creativity with the 5-entry bound. -/
def c6e : EngineSt :=
  { creativity_level := mkRat 7 10, context_memory := [], max_memory := 5, user_profile := [] }

/-- Six turns, one more than `c6e`'s bound. -/
def c6turns : List (String × String × String) :=
  [("U1", "R1", "t1"), ("U2", "R2", "t2"), ("U3", "R3", "t3"),
   ("U4", "R4", "t4"), ("U5", "R5", "t5"), ("U6", "R6", "t6")]

theorem c6_memory_bound_fifo_witness :
    ((5 : Int) ≤ c6e.max_memory ∧ c6e.max_memory ≤ 50 ∧ c6e.context_memory = [] ∧
      (c6turns.length : Int) > c6e.max_memory) ∧
    (((run_turns c6e c6turns).context_memory.length : Int) = c6e.max_memory ∧
      (run_turns c6e c6turns).context_memory =
        (c6turns.map turn_entry).drop (c6turns.length - c6e.max_memory.toNat)) :=
  ⟨⟨by decide, by decide, rfl, by decide⟩,
   c6_memory_bound_fifo c6e c6turns (by decide) (by decide) rfl (by decide)⟩

/-- An engine with one memory entry and one profile pair. -/
def c7e : EngineSt :=
  { creativity_level := mkRat 7 10
    context_memory := [{ user := "hi", response := "Hello!", timestamp := "t1" }]
    max_memory := 5
    user_profile := [("name", "sam")] }

theorem c7_snapshot_round_trip_witness :
    ((5 : Int) ≤ c7e.max_memory ∧ c7e.max_memory ≤ 50 ∧
      (c7e.context_memory.length : Int) ≤ c7e.max_memory) ∧
    ((load_from_dict c6e (to_dict c7e)).context_memory = c7e.context_memory ∧
      (load_from_dict c6e (to_dict c7e)).user_profile = c7e.user_profile ∧
      (load_from_dict c6e (to_dict c7e)).max_memory = c7e.max_memory) :=
  ⟨⟨by decide, by decide, by decide⟩,
   c7_snapshot_round_trip c7e c6e (by decide) (by decide) (by decide)⟩

/-- An engine at level 0.2. -/
def c8e : EngineSt :=
  { creativity_level := mkRat 1 5, context_memory := [], max_memory := 10, user_profile := [] }

theorem c8_conservative_deterministic_witness :
    (c8e.creativity_level ≤ mkRat 3 10) ∧
    ((generate_response c8e rngW "t" "hello").1 =
      (match load_response_patterns.lookup (analyze_intent "hello") with
       | some p => p.conservative
       | none => default_responses.conservative).headD "I'm here to help!" ∧
     (generate_response c8e rngW "t" "hello").1 =
       (generate_response c8e rngW2 "t2" "hello").1) ∧
    (generate_response c8e rngW "t" "hello").1 = "Hello! How can I assist you today?" :=
  ⟨by norm_num [c8e],
   c8_conservative_deterministic c8e rngW rngW2 "t" "t2" "hello" (by norm_num [c8e]),
   by decide⟩

/-! ## C1 — the router always returns a suffixed response string -/

lemma identity_section_shape {c : ℚ} {cur ml r : String}
    (h : identity_section c cur ml = some r) : ∃ b nm, r = b ++ using_suffix nm := by
  simp only [identity_section] at h
  split at h
  · exact ⟨_, _, (Option.some.inj h).symm⟩
  · exact absurd h (by simp)

lemma weather_section_shape {w : World} {cur ml r : String}
    (h : weather_section w cur ml = some r) : ∃ b nm, r = b ++ using_suffix nm := by
  simp only [weather_section] at h
  split at h
  · exact ⟨_, _, (Option.some.inj h).symm⟩
  · exact absurd h (by simp)

lemma search_section_shape {w : World} {en : Bool} {lim : Int} {c : ℚ} {cur ml r : String}
    (h : search_section w en lim c cur ml = some r) : ∃ b nm, r = b ++ using_suffix nm := by
  simp only [search_section] at h
  repeat' split at h
  all_goals first
    | exact ⟨_, _, (Option.some.inj h).symm⟩
    | exact absurd h (by simp)

lemma system_section_shape {w : World} {en : Bool} {c : ℚ} {cur ml r : String}
    (h : system_section w en c cur ml = some r) : ∃ b nm, r = b ++ using_suffix nm := by
  simp only [system_section] at h
  repeat' split at h
  all_goals first
    | exact ⟨_, _, (Option.some.inj h).symm⟩
    | exact absurd h (by simp)

lemma primary_fail_no_ret (w : World) (mid : String) (dr : Bool) (e : PyExc) (st : St)
    (r : String) : (primary_fail w mid dr e st).1 ≠ StepOut.retS r := by
  intro h
  simp only [primary_fail, primary_fail_tail] at h
  repeat' split at h
  all_goals simp at h

lemma primary_step_ret {w : World} {mid name : String} {dr : Bool} {st : St} {r : String}
    (h : (primary_step w mid name dr st).1 = StepOut.retS r) :
    ∃ text, r = text ++ using_suffix name := by
  simp only [primary_step] at h
  repeat' split at h
  all_goals first
    | exact (primary_fail_no_ret _ _ _ _ _ _ h).elim
    | exact ⟨_, (StepOut.retS.inj h).symm⟩

lemma primary_loop_some {w : World} {mid name : String} :
    ∀ (fuel : Nat) (dr : Bool) (le : Option String) (st : St) (r : String),
      (primary_loop w mid name fuel dr le st).1 = some r →
      ∃ b, r = b ++ using_suffix name := by
  intro fuel
  induction fuel with
  | zero =>
    intro dr le st r h
    simp [primary_loop] at h
  | succ n ih =>
    intro dr le st r h
    unfold primary_loop at h
    split at h
    · rename_i r' st' heq
      simp only at h
      rw [← Option.some.inj h]
      exact primary_step_ret (congrArg Prod.fst heq)
    · exact absurd h (by simp)
    · exact ih _ _ _ _ h

lemma alt_walk2_some {w : World} {cap : Int} {cur : String} {ui : List (String × ModelInfo)} :
    ∀ (l : List String) (tried : Int) (st : St) (r : String),
      (alt_walk2 w cap cur ui l tried st).1 = some r →
      ∃ b nm, r = b ++ using_suffix nm := by
  intro l
  induction l with
  | nil =>
    intro tried st r h
    simp [alt_walk2] at h
  | cons alt rest ih =>
    intro tried st r h
    simp only [alt_walk2] at h
    split at h
    · exact ih _ _ _ h
    · split at h
      · exact ⟨_, _, (Option.some.inj h).symm⟩
      · exact absurd h (by simp)

lemma alternates_region_some {w : World} {cur : String} {le : Option String} {st : St}
    {r : String} (h : (alternates_region w cur le st).1 = some r) :
    ∃ b nm, r = b ++ using_suffix nm := by
  simp only [alternates_region] at h
  repeat' split at h
  all_goals first
    | exact alt_walk2_some _ _ _ _ h
    | exact absurd h (by simp)

lemma openrouter_branch_shape (w : World) (st : St) (cur name msg : String) :
    ∃ b nm, (openrouter_branch w st cur name msg).1 = b ++ using_suffix nm := by
  simp only [openrouter_branch]
  split
  · rename_i r heq
    obtain ⟨b, hb⟩ := primary_loop_some _ _ _ _ _ heq
    exact ⟨b, name, hb⟩
  · split
    · rename_i r heq
      exact alternates_region_some heq
    · exact ⟨_, "Local Conversation Engine (Fallback)", rfl⟩

lemma try_model_branch_shape {w : World} {st : St} {cur name msg : String}
    {res : String × St} (h : try_model_branch w st cur name msg = Except.ok res) :
    ∃ b nm, res.1 = b ++ using_suffix nm := by
  simp only [try_model_branch] at h
  split at h
  · obtain ⟨b, nm, hb⟩ := openrouter_branch_shape w st cur name msg
    exact ⟨b, nm, by rw [← Except.ok.inj h]; exact hb⟩
  · exact ⟨_, name, by rw [← Except.ok.inj h]⟩

/-- C1: for every message, every argument combination (hence every selected
model id), every settings state and every oracle behaviour — including
remote calls that always fail — `call_ai_api` returns a response string of
the uniform envelope shape `{body}\n\n[Using: {name}]`; the `try/except`
around the model branch maps any escaped exception to the generic
"I'm having trouble connecting" message, which has the same shape, so no
exception reaches the caller. -/
theorem c1_call_ai_api_total_with_suffix (w : World) (st : St) (message : String)
    (enable_search enable_system_commands : Option Bool)
    (search_results_limit : Option Int) (model_id : Option String) :
    ∃ b nm, (call_ai_api w st message enable_search enable_system_commands
      search_results_limit model_id).1 = b ++ using_suffix nm := by
  simp only [call_ai_api]
  split
  · rename_i r h
    exact identity_section_shape h
  · split
    · rename_i r h
      exact weather_section_shape h
    · split
      · rename_i r h
        exact search_section_shape h
      · split
        · rename_i r h
          exact system_section_shape h
        · split
          · rename_i res h
            exact try_model_branch_shape h
          · exact ⟨_, _, rfl⟩

/-! ## State-preservation helper lemmas -/

lemma setModelErrorSafe_calls (st : St) (t : Nat) (mid err : String) :
    (setModelErrorSafe st t mid err).calls = st.calls := by
  unfold setModelErrorSafe
  split <;> rfl

lemma setModelErrorSafe_reloads (st : St) (t : Nat) (mid err : String) :
    (setModelErrorSafe st t mid err).reloads = st.reloads := by
  unfold setModelErrorSafe
  split <;> rfl

lemma clearModelErrorIf_calls (st : St) (mid : String) :
    (clearModelErrorIf st mid).calls = st.calls := by
  unfold clearModelErrorIf
  split <;> rfl

lemma clearModelErrorIf_reloads (st : St) (mid : String) :
    (clearModelErrorIf st mid).reloads = st.reloads := by
  unfold clearModelErrorIf
  split <;> rfl

/-! ## C9 — weather precedes search in the dispatch order -/

/-- C9: dispatch order is fixed with first match winning — any message
whose lower-cased, stripped text contains "weather" and matches none of the
model/identity phrases is answered by the weather path (with the extracted
or default city), regardless of any search keywords it also contains. -/
theorem c9_weather_beats_search (w : World) (st : St) (message : String)
    (h1 : model_questions.any (fun q => pyContains (pyStrip (pyLower message)) q) = false)
    (h2 : identity_questions.any (fun q => pyContains (pyStrip (pyLower message)) q) = false)
    (h3 : pyContains (pyStrip (pyLower message)) "weather" = true) :
    (call_ai_api w st message none none none none).1 =
      w.weatherFn (extract_city (pyStrip (pyLower message))) ++
        using_suffix (catalogGetD st.advanced.current_model).name := by
  have hid : identity_section st.engine.creativity_level st.advanced.current_model
      (pyStrip (pyLower message)) = none := by
    simp [identity_section, h1, h2]
  have hw : weather_section w st.advanced.current_model (pyStrip (pyLower message)) =
      some (w.weatherFn (extract_city (pyStrip (pyLower message))) ++
        using_suffix (catalogGetD st.advanced.current_model).name) := by
    simp [weather_section, h3]
  simp only [call_ai_api, Option.getD_none, hid, hw]

/-! ## C10 — unknown model id silently degrades to the local engine -/

/-- C10: when the selected model id is not a key of the catalog and the
message reaches the model-routing stage, `call_ai_api` substitutes the
`local_engine` descriptor without failing: it answers via the local
responder, suffixes the local engine's display name, and performs no
remote call. -/
theorem c10_unknown_model_uses_local_engine (w : World) (st : St) (message : String)
    (hcat : get_available_models.lookup st.advanced.current_model = none)
    (hid : identity_section st.engine.creativity_level st.advanced.current_model
      (pyStrip (pyLower message)) = none)
    (hwz : weather_section w st.advanced.current_model (pyStrip (pyLower message)) = none)
    (hse : search_section w st.advanced.enable_search st.advanced.search_results_limit
      st.engine.creativity_level st.advanced.current_model (pyStrip (pyLower message)) = none)
    (hsy : system_section w st.advanced.enable_system_commands st.engine.creativity_level
      st.advanced.current_model (pyStrip (pyLower message)) = none) :
    (call_ai_api w st message none none none none).1 =
      (generate_response st.engine w.rng w.now message).1 ++
        using_suffix "Local Conversation Engine" ∧
    (call_ai_api w st message none none none none).2.calls = st.calls := by
  have hinfo : catalogGetD st.advanced.current_model = local_engine_info := by
    simp [catalogGetD, hcat]
  have hty : ¬ (catalogGetD st.advanced.current_model).mtype = "openrouter" := by
    rw [hinfo]
    decide
  have hname : (catalogGetD st.advanced.current_model).name = "Local Conversation Engine" := by
    rw [hinfo]
    rfl
  simp only [call_ai_api, Option.getD_none, hid, hwz, hse, hsy, try_model_branch,
    if_neg hty, hname]
  refine ⟨?_, ?_⟩
  · first | rfl | trivial
  · simp [clearModelErrorIf_calls]

/-! ## C3 — retry count with a persistently rate-limited primary -/

lemma SM_set_model_error_auto_fallback (s : SettingsSt) (mid e : String) (t : Nat) :
    (SM_set_model_error s mid e t).auto_fallback = s.auto_fallback := rfl

lemma SM_set_model_error_ignore_status_pings (s : SettingsSt) (mid e : String) (t : Nat) :
    (SM_set_model_error s mid e t).ignore_status_pings = s.ignore_status_pings := rfl

lemma setModelErrorSafe_settings_map (st : St) (t : Nat) (mid e : String) :
    (setModelErrorSafe st t mid e).settings =
      st.settings.map (fun s => SM_set_model_error s mid e t) := by
  unfold setModelErrorSafe
  split
  · rename_i s' heq
    rw [heq]
    rfl
  · rename_i heq
    rw [heq]
    rfl

/-- With every remote call rate-limited, one primary-loop iteration records
the error and continues (the error is transient, not auth-like). -/
lemma rate_limit_step (w : World) (mid : String)
    (hrem : ∀ k, w.remote k = RemoteResult.err (PyExc.hfError 429 "HF rate limit exceeded")) :
    ∀ (name : String) (dr : Bool) (st : St),
      primary_step w mid name dr st =
        (StepOut.cont dr "HF rate limit exceeded",
         setModelErrorSafe { st with calls := st.calls ++ [mid] } w.nowT mid
           "HF rate limit exceeded") := by
  intro name dr st
  have hauth : (pyContains (pyLower "HF rate limit exceeded") "authentication" ||
      pyContains (pyLower "HF rate limit exceeded") "authorization" ||
      pyContains (pyLower "HF rate limit exceeded") "401" ||
      pyContains (pyLower "HF rate limit exceeded") "403") = false := by decide
  have htrans : (pyContains (pyLower "HF rate limit exceeded") "paused" ||
      pyContains (pyLower "HF rate limit exceeded") "loading" ||
      pyContains (pyLower "HF rate limit exceeded") "rate limit" ||
      pyContains (pyLower "HF rate limit exceeded") "429") = true := by decide
  simp only [primary_step, doRemote, ite_self, hrem, primary_fail, pyStr, primary_fail_tail,
    hauth, htrans, Bool.false_and, Bool.not_true, Bool.false_eq_true, if_false]

/-- C3: with `retry_attempts = 3`, `auto_fallback` disabled and a primary
model whose every call fails with the client's rate-limit error, a general
message produces exactly three primary attempts (no alternate attempts) and
then the Local Responder fallback response. -/
theorem c3_retry_count_rate_limited (w : World) (st : St) (message : String) (s : SettingsSt)
    (hs : st.settings = some s) (hr : s.retry_attempts = 3) (hfb : s.auto_fallback = false)
    (hrem : ∀ k, w.remote k = RemoteResult.err (PyExc.hfError 429 "HF rate limit exceeded"))
    (hty : (catalogGetD st.advanced.current_model).mtype = "openrouter")
    (hid : identity_section st.engine.creativity_level st.advanced.current_model
      (pyStrip (pyLower message)) = none)
    (hwz : weather_section w st.advanced.current_model (pyStrip (pyLower message)) = none)
    (hse : search_section w st.advanced.enable_search st.advanced.search_results_limit
      st.engine.creativity_level st.advanced.current_model (pyStrip (pyLower message)) = none)
    (hsy : system_section w st.advanced.enable_system_commands st.engine.creativity_level
      st.advanced.current_model (pyStrip (pyLower message)) = none) :
    (call_ai_api w st message none none none none).2.calls =
      st.calls ++ [st.advanced.current_model, st.advanced.current_model,
        st.advanced.current_model] ∧
    ∃ resp, (call_ai_api w st message none none none none).1 =
      resp ++ using_suffix "Local Conversation Engine (Fallback)" := by
  have heff : effective_attempts (some s) = 3 := by
    simp [effective_attempts, hr]
  have hproc : (pyContains (pyLower "HF rate limit exceeded") "paused" ||
      pyContains (pyLower "HF rate limit exceeded") "loading") = false := by decide
  simp only [call_ai_api, Option.getD_none, hid, hwz, hse, hsy, try_model_branch,
    if_pos hty, openrouter_branch, hs, heff, primary_loop,
    rate_limit_step w st.advanced.current_model hrem,
    alternates_region, setModelErrorSafe_settings_map, hs, Option.map_some',
    SM_set_model_error_auto_fallback, hfb, Option.getD_some, Bool.false_and,
    Bool.false_eq_true, if_false, setModelErrorSafe_calls, List.append_assoc,
    List.singleton_append]
  exact ⟨rfl, ⟨_, rfl⟩⟩

/-! ## C4 — auth recovery reloads the token exactly once -/

lemma doReload_snd_calls (w : World) (st : St) : ((doReload w st).2).calls = st.calls := rfl

lemma doReload_snd_reloads (w : World) (st : St) :
    ((doReload w st).2).reloads = st.reloads + 1 := rfl

lemma doReload_snd_settings (w : World) (st : St) :
    ((doReload w st).2).settings = st.settings := rfl

/-- First auth failure (no reload done yet): record the error, reload the
token (successfully), and continue with `did_reload_token = True`. -/
lemma auth_step_first (w : World) (mid : String)
    (hrem : ∀ k, w.remote k =
      RemoteResult.err (PyExc.hfError 401 "HF authentication/authorization error"))
    (hrel : ∀ k, w.reloadOk k = true) :
    ∀ (name : String) (st : St),
      primary_step w mid name false st =
        (StepOut.cont true "HF authentication/authorization error",
         (doReload w (setModelErrorSafe { st with calls := st.calls ++ [mid] } w.nowT mid
           "HF authentication/authorization error")).2) := by
  intro name st
  have hauth : (pyContains (pyLower "HF authentication/authorization error") "authentication" ||
      pyContains (pyLower "HF authentication/authorization error") "authorization" ||
      pyContains (pyLower "HF authentication/authorization error") "401" ||
      pyContains (pyLower "HF authentication/authorization error") "403") = true := by decide
  simp only [primary_step, doRemote, ite_self, hrem, primary_fail, pyStr, hauth,
    Bool.not_false, Bool.and_true, if_true, doReload, hrel]

/-- Second auth failure (reload already done): record the error and break —
the reload hook does not run again and the error is not transient. -/
lemma auth_step_second (w : World) (mid : String)
    (hrem : ∀ k, w.remote k =
      RemoteResult.err (PyExc.hfError 401 "HF authentication/authorization error")) :
    ∀ (name : String) (st : St),
      primary_step w mid name true st =
        (StepOut.brk "HF authentication/authorization error",
         setModelErrorSafe { st with calls := st.calls ++ [mid] } w.nowT mid
           "HF authentication/authorization error") := by
  intro name st
  have htrans : (pyContains (pyLower "HF authentication/authorization error") "paused" ||
      pyContains (pyLower "HF authentication/authorization error") "loading" ||
      pyContains (pyLower "HF authentication/authorization error") "rate limit" ||
      pyContains (pyLower "HF authentication/authorization error") "429") = false := by decide
  simp only [primary_step, doRemote, ite_self, hrem, primary_fail, pyStr, primary_fail_tail,
    Bool.not_true, Bool.and_false, Bool.false_eq_true, if_false, htrans, Bool.not_false,
    if_true]

/-- C4: with `retry_attempts = 2`, a primary model that fails with the
client's Auth error on every call, and a token reload that succeeds, a
general message produces exactly two primary attempts and exactly ONE
credential reload — the second consecutive Auth failure does not trigger a
second reload. -/
theorem c4_auth_recovery_single_reload (w : World) (st : St) (message : String) (s : SettingsSt)
    (hs : st.settings = some s) (hr : s.retry_attempts = 2)
    (hip : s.ignore_status_pings = false)
    (hrem : ∀ k, w.remote k =
      RemoteResult.err (PyExc.hfError 401 "HF authentication/authorization error"))
    (hrel : ∀ k, w.reloadOk k = true)
    (hty : (catalogGetD st.advanced.current_model).mtype = "openrouter")
    (hid : identity_section st.engine.creativity_level st.advanced.current_model
      (pyStrip (pyLower message)) = none)
    (hwz : weather_section w st.advanced.current_model (pyStrip (pyLower message)) = none)
    (hse : search_section w st.advanced.enable_search st.advanced.search_results_limit
      st.engine.creativity_level st.advanced.current_model (pyStrip (pyLower message)) = none)
    (hsy : system_section w st.advanced.enable_system_commands st.engine.creativity_level
      st.advanced.current_model (pyStrip (pyLower message)) = none) :
    (call_ai_api w st message none none none none).2.reloads = st.reloads + 1 ∧
    (call_ai_api w st message none none none none).2.calls =
      st.calls ++ [st.advanced.current_model, st.advanced.current_model] := by
  have heff : effective_attempts (some s) = 2 := by
    simp [effective_attempts, hr]
  have hproc : (pyContains (pyLower "HF authentication/authorization error") "paused" ||
      pyContains (pyLower "HF authentication/authorization error") "loading") = false := by
    decide
  simp only [call_ai_api, Option.getD_none, hid, hwz, hse, hsy, try_model_branch,
    if_pos hty, openrouter_branch, hs, heff, primary_loop,
    auth_step_first w st.advanced.current_model hrem hrel,
    auth_step_second w st.advanced.current_model hrem,
    alternates_region, Option.getD_some, hproc, setModelErrorSafe_settings_map,
    doReload_snd_settings, Option.map_some', SM_set_model_error_ignore_status_pings, hip,
    Bool.and_false, Bool.false_eq_true, if_false, setModelErrorSafe_calls,
    setModelErrorSafe_reloads, doReload_snd_calls, doReload_snd_reloads,
    List.append_assoc, List.singleton_append]
  exact ⟨trivial, trivial⟩

/-! ## C2 — the alternates walk at the claimed scenario -/

/-- A minimal OpenRouter-type catalog entry for scenario fixtures. -/
def orInfo (nm : String) : ModelInfo :=
  { name := nm, mtype := "openrouter", provider := "openrouter",
    description := "", features := [], status := "available" }

/-- A backend OpenRouter model id used as the selected model in scenarios. -/
def c2cur : String := "deepseek/deepseek-r1-0528:free"

/-- C2 world: the primary call pauses; the first alternate would 404; every
later call would succeed. -/
def c2w : World :=
  { remote := fun k =>
      if k = 0 then RemoteResult.err (PyExc.runtime "HF endpoint paused")
      else if k = 1 then RemoteResult.err (PyExc.hfError 404 "Model not found or endpoint removed")
      else RemoteResult.ok "alternate response"
    reloadOk := fun _ => true
    rng := rngW
    weatherFn := fun c => "W:" ++ c
    searchFn := fun q _ => "S:" ++ q
    sysFn := fun _ => none
    env_alt_models := []
    now := "t0", nowT := 7 }

/-- C2 settings: `alt_attempt_cap = 2`, three alternates in the UI catalog. -/
def c2s : SettingsSt :=
  { retry_attempts := 1, auto_fallback := true, alt_attempt_cap := 2
    available_models := some [(c2cur, orInfo "Cur"), ("alt-a", orInfo "Alt A"),
      ("alt-b", orInfo "Alt B"), ("alt-c", orInfo "Alt C")] }

/-- C2 initial state. -/
def c2st : St :=
  { engine := EngineSt.init, settings := some c2s,
    advanced := { current_model := c2cur } }

/-- C2 (evaluation at the failing input): with `altAttemptCap = 2`, three
alternate candidates, a paused primary and a first alternate that would
404, the code queries NO alternate at all — the only remote call is the
primary one — and degrades to the local fallback.  The first alternates
loop raises `NameError` (`hf_api` is undefined) for every candidate, each
such failure consumes cap budget, and the cap is exhausted before the
direct loop runs; the claimed behaviour (404 is free, both remaining
candidates get tried) therefore does not occur. -/
theorem c2_alternates_never_attempted :
    (call_ai_api c2w c2st "hello there" none none none none).2.calls = [c2cur] ∧
    ∃ resp, (call_ai_api c2w c2st "hello there" none none none none).1 =
      resp ++ using_suffix "Local Conversation Engine (Fallback)" :=
  ⟨by decide, ⟨"Hello! How can I assist you today?", by decide⟩⟩

/-! ## Scenario witnesses for C3, C4, C9, C10 -/

/-- C3 world: every remote call is rate-limited. -/
def c3w : World :=
  { c2w with remote := fun _ => RemoteResult.err (PyExc.hfError 429 "HF rate limit exceeded") }

/-- C3 settings: three retries, no auto-fallback. -/
def c3s : SettingsSt := { retry_attempts := 3, auto_fallback := false }

/-- C3 initial state. -/
def c3st : St :=
  { engine := EngineSt.init, settings := some c3s,
    advanced := { current_model := c2cur } }

theorem c3_retry_count_rate_limited_witness :
    (c3s.retry_attempts = 3 ∧ c3s.auto_fallback = false ∧
      (catalogGetD c3st.advanced.current_model).mtype = "openrouter") ∧
    ((call_ai_api c3w c3st "hello there" none none none none).2.calls =
      c3st.calls ++ [c3st.advanced.current_model, c3st.advanced.current_model,
        c3st.advanced.current_model] ∧
    ∃ resp, (call_ai_api c3w c3st "hello there" none none none none).1 =
      resp ++ using_suffix "Local Conversation Engine (Fallback)") :=
  ⟨⟨rfl, rfl, by decide⟩,
   c3_retry_count_rate_limited c3w c3st "hello there" c3s rfl rfl rfl (fun k => rfl)
     (by decide) (by decide) (by decide) (by decide) (by decide)⟩

/-- C4 world: every remote call fails with the client's Auth error; the
token reload succeeds. -/
def c4w : World :=
  { c2w with
    remote := fun _ =>
      RemoteResult.err (PyExc.hfError 401 "HF authentication/authorization error")
    reloadOk := fun _ => true }

/-- C4 settings: two attempts. -/
def c4s : SettingsSt := { retry_attempts := 2 }

/-- C4 initial state. -/
def c4st : St :=
  { engine := EngineSt.init, settings := some c4s,
    advanced := { current_model := c2cur } }

theorem c4_auth_recovery_single_reload_witness :
    (c4s.retry_attempts = 2 ∧ c4s.ignore_status_pings = false) ∧
    ((call_ai_api c4w c4st "hello there" none none none none).2.reloads =
      c4st.reloads + 1 ∧
    (call_ai_api c4w c4st "hello there" none none none none).2.calls =
      c4st.calls ++ [c4st.advanced.current_model, c4st.advanced.current_model]) :=
  ⟨⟨rfl, rfl⟩,
   c4_auth_recovery_single_reload c4w c4st "hello there" c4s rfl rfl rfl (fun k => rfl)
     (fun k => rfl) (by decide) (by decide) (by decide) (by decide) (by decide)⟩

theorem c9_weather_beats_search_witness :
    (model_questions.any (fun q => pyContains (pyStrip (pyLower "what is the weather")) q) = false ∧
     identity_questions.any (fun q => pyContains (pyStrip (pyLower "what is the weather")) q) = false ∧
     pyContains (pyStrip (pyLower "what is the weather")) "weather" = true ∧
     pyContains (pyStrip (pyLower "what is the weather")) "what is" = true) ∧
    (call_ai_api c3w c3st "what is the weather" none none none none).1 =
      c3w.weatherFn (extract_city (pyStrip (pyLower "what is the weather"))) ++
        using_suffix (catalogGetD c3st.advanced.current_model).name :=
  ⟨⟨by decide, by decide, by decide, by decide⟩,
   c9_weather_beats_search c3w c3st "what is the weather" (by decide) (by decide) (by decide)⟩

/-- C10 initial state: a selected model id that is not in the catalog. -/
def c10st : St :=
  { engine := EngineSt.init, settings := some {},
    advanced := { current_model := "no-such-model" } }

theorem c10_unknown_model_uses_local_engine_witness :
    (get_available_models.lookup c10st.advanced.current_model = none) ∧
    ((call_ai_api c3w c10st "zzz qqq" none none none none).1 =
      (generate_response c10st.engine c3w.rng c3w.now "zzz qqq").1 ++
        using_suffix "Local Conversation Engine" ∧
    (call_ai_api c3w c10st "zzz qqq" none none none none).2.calls = c10st.calls) :=
  ⟨by decide,
   c10_unknown_model_uses_local_engine c3w c10st "zzz qqq" (by decide) (by decide)
     (by decide) (by decide) (by decide)⟩

end LunaAI
